import Mathlib

/-!
Shallow embedding of the AI_Pharmacovigilance backend
(`backend/models.py` and `backend/main.py`).

External collaborators (the Gemini LLM client, the pypdf `PdfReader`,
the local file system) are modelled as explicit oracle parameters:
an `Option`-valued oracle where `none` stands for the failure mode the
Python code catches (a raised exception / a missing file).  Python
floats are modelled as rationals (`ℚ`); the Pydantic numeric range
checks are order comparisons, so this is faithful for every value the
claims mention.
-/

namespace Pharma

/-! ## Data model: `backend/models.py`

Pydantic models.  Every field in the source is declared with
`Field(...)`, i.e. required.  The "raw" structures below stand for a
parsed JSON object presented to Pydantic for validation: each field is
`Option`-valued, `none` meaning the key is absent from the JSON object.
`model_validate` is the embedding of Pydantic validation: it demands
every required key and enforces the declared `ge` / `le` bounds, and
passes the values through unchanged (Pydantic does not clamp).
-/

structure HeatmapEntry where
  adverse_event : String
  trial_frequency_percent : ℚ
  post_market_severity_score : Int
  contradiction_level : String
deriving DecidableEq, Repr

structure ContradictionRequest where
  trial_claim : String
  case_report : String
  session_id : String
deriving DecidableEq, Repr

structure ContradictionResponse where
  contradiction_detected : String
  signal_confidence_score : ℚ
  contradiction_reasoning : String
  safety_contradiction_heatmap : List HeatmapEntry
  regulatory_reporting_draft : String
deriving DecidableEq, Repr

structure RawHeatmapEntry where
  adverse_event : Option String
  trial_frequency_percent : Option ℚ
  post_market_severity_score : Option Int
  contradiction_level : Option String
deriving DecidableEq, Repr

structure RawContradictionResponse where
  contradiction_detected : Option String
  signal_confidence_score : Option ℚ
  contradiction_reasoning : Option String
  safety_contradiction_heatmap : Option (List RawHeatmapEntry)
  regulatory_reporting_draft : Option String
deriving DecidableEq, Repr

/-- Pydantic validation of one `HeatmapEntry`: all four fields are
required (`Field(...)`); `trial_frequency_percent` carries `ge=0.0,
le=100.0` and `post_market_severity_score` carries `ge=1, le=5`. -/
def HeatmapEntry.model_validate (raw : RawHeatmapEntry) : Option HeatmapEntry :=
  match raw.adverse_event, raw.trial_frequency_percent,
      raw.post_market_severity_score, raw.contradiction_level with
  | some ae, some tfp, some pmss, some cl =>
      if 0 ≤ tfp ∧ tfp ≤ 100 ∧ 1 ≤ pmss ∧ pmss ≤ 5 then
        some ⟨ae, tfp, pmss, cl⟩
      else
        none
  | _, _, _, _ => none

/-- Pydantic validation of the list field: each element must itself
validate as a `HeatmapEntry`. -/
def validate_heatmap : List RawHeatmapEntry → Option (List HeatmapEntry)
  | [] => some []
  | e :: es =>
    match HeatmapEntry.model_validate e, validate_heatmap es with
    | some v, some vs => some (v :: vs)
    | _, _ => none

/-- Pydantic validation of a `ContradictionResponse`: all five fields
are required (`Field(...)`); `signal_confidence_score` carries `ge=0.0,
le=1.0`; `contradiction_detected` is a plain `str` field (the
Yes/No contract lives only in the field description). -/
def ContradictionResponse.model_validate (raw : RawContradictionResponse) :
    Option ContradictionResponse :=
  match raw.contradiction_detected, raw.signal_confidence_score,
      raw.contradiction_reasoning, raw.safety_contradiction_heatmap,
      raw.regulatory_reporting_draft with
  | some cd, some scs, some cr, some hm, some rrd =>
      if 0 ≤ scs ∧ scs ≤ 1 then
        match validate_heatmap hm with
        | some vhm => some ⟨cd, scs, cr, vhm, rrd⟩
        | none => none
      else
        none
  | _, _, _, _, _ => none

/-! ## Session history store: `backend/main.py`, `SESSION_HISTORY` / `store_result`

`SESSION_HISTORY: dict[str, list[dict]]` is a process-wide map from
session id to a list of `model_dump()` dictionaries.  A dumped model is
represented by a structure holding the same fields (the dict produced
by `model_dump` is the model's fields, recursively). -/

structure HeatmapEntryDump where
  adverse_event : String
  trial_frequency_percent : ℚ
  post_market_severity_score : Int
  contradiction_level : String
deriving DecidableEq, Repr

structure ContradictionResponseDump where
  contradiction_detected : String
  signal_confidence_score : ℚ
  contradiction_reasoning : String
  safety_contradiction_heatmap : List HeatmapEntryDump
  regulatory_reporting_draft : String
deriving DecidableEq, Repr

def HeatmapEntry.model_dump (e : HeatmapEntry) : HeatmapEntryDump :=
  ⟨e.adverse_event, e.trial_frequency_percent,
    e.post_market_severity_score, e.contradiction_level⟩

def ContradictionResponse.model_dump (r : ContradictionResponse) :
    ContradictionResponseDump :=
  ⟨r.contradiction_detected, r.signal_confidence_score,
    r.contradiction_reasoning,
    r.safety_contradiction_heatmap.map HeatmapEntry.model_dump,
    r.regulatory_reporting_draft⟩

/-- The `SESSION_HISTORY` map.  `none` = key absent from the dict. -/
def SessionHistory : Type := String → Option (List ContradictionResponseDump)

/-- Initial state: the module-level `SESSION_HISTORY = {}`. -/
def emptyHistory : SessionHistory := fun _ => none

/-- Python's `l[-n:]`: the last `n` elements (the whole list when it is
shorter than `n`). -/
def lastN (n : Nat) (l : List α) : List α := l.drop (l.length - n)

/-- `store_result` (`backend/main.py` lines 33-44): ensure the key
exists, append `result.model_dump()`, keep only the last 5 entries. -/
def store_result (session_id : String) (result : ContradictionResponse)
    (h : SessionHistory) : SessionHistory :=
  fun k =>
    if k = session_id then
      some (lastN 5 (((h session_id).getD []) ++ [result.model_dump]))
    else
      h k

/-- The list a session currently maps to (`[]` when the key is absent). -/
def histAt (h : SessionHistory) (session_id : String) :
    List ContradictionResponseDump :=
  (h session_id).getD []

/-- `store_result` calls for one fixed session, oldest first. -/
def store_session (session_id : String) (rs : List ContradictionResponse)
    (h : SessionHistory) : SessionHistory :=
  rs.foldl (fun h r => store_result session_id r h) h

/-- An arbitrary sequence of `store_result` calls, oldest first. -/
def store_all (ops : List (String × ContradictionResponse))
    (h : SessionHistory) : SessionHistory :=
  ops.foldl (fun h op => store_result op.1 op.2 h) h

/-! ## Context provider: `get_rag_context` (`backend/main.py` lines 47-60)

The file system is an oracle: `some content` when `rag_corpus.txt` is
readable, `none` for `FileNotFoundError`. -/

def ragFallback : String :=
  "No external safety data available (rag_corpus.txt not found). RAG context is empty."

def get_rag_context (file : Option String) : String :=
  file.getD ragFallback

/-! ## HTTP error type (FastAPI `HTTPException`) -/

structure HTTPErr where
  status_code : Nat
  detail : String
deriving DecidableEq, Repr

/-! ## PDF text extraction: `extract_text_from_pdf_bytes` (lines 90-101)

`PdfReader` (pypdf) is an oracle from the byte stream to either `none`
(the parse raised, caught and turned into a 400) or the list of pages,
each page being the result of `page.extract_text()` (`none` when the
page yields no text; the code substitutes `""` via `or ""`). -/

def extract_text_from_pdf_bytes
    (pdfReader : List Nat → Option (List (Option String)))
    (pdf_bytes : List Nat) : Except HTTPErr String :=
  match pdfReader pdf_bytes with
  | none => .error ⟨400, "Could not read PDF content."⟩
  | some pages =>
      .ok (String.intercalate "\n\n" (pages.map (fun p => p.getD "")))

/-! ## Prompt construction

The user-prompt f-strings of `extract_request_from_pdf_text` and
`analyze_with_gemini`, reproduced as string concatenation (apostrophes
escaped as `\x27`). -/

def extraction_user_prompt (pdf_text : String) : String :=
  "\n    --- BEGIN PDF TEXT ---\n    " ++ pdf_text ++
  "\n    --- END PDF TEXT ---\n\n    Extract the required fields: trial_claim, case_report, and session_id. \n    Respond ONLY with JSON compatible with the ContradictionRequest schema.\n    "

/-- Rendering of `json.dumps` for a string value. (String escaping and
the `indent=2` whitespace of the Python call are not reproduced; no
claim inspects the rendered characters.) -/
def jsonOfString (s : String) : String := "\"" ++ s ++ "\""

def jsonOfRat (q : ℚ) : String := toString q

def HeatmapEntryDump.toJson (e : HeatmapEntryDump) : String :=
  "\x7b\"adverse_event\": " ++ jsonOfString e.adverse_event ++
  ", \"trial_frequency_percent\": " ++ jsonOfRat e.trial_frequency_percent ++
  ", \"post_market_severity_score\": " ++ toString e.post_market_severity_score ++
  ", \"contradiction_level\": " ++ jsonOfString e.contradiction_level ++ "\x7d"

def ContradictionResponseDump.toJson (r : ContradictionResponseDump) : String :=
  "\x7b\"contradiction_detected\": " ++ jsonOfString r.contradiction_detected ++
  ", \"signal_confidence_score\": " ++ jsonOfRat r.signal_confidence_score ++
  ", \"contradiction_reasoning\": " ++ jsonOfString r.contradiction_reasoning ++
  ", \"safety_contradiction_heatmap\": [" ++
  String.intercalate ", " (r.safety_contradiction_heatmap.map HeatmapEntryDump.toJson) ++
  "], \"regulatory_reporting_draft\": " ++ jsonOfString r.regulatory_reporting_draft ++ "\x7d"

/-- `json.dumps(SESSION_HISTORY.get(session_id, "No prior history for
this session."), indent=2)`: the stored list when the key is present,
the sentinel string otherwise. -/
def json_dumps_history : Option (List ContradictionResponseDump) → String
  | some l => "[" ++ String.intercalate ", " (l.map ContradictionResponseDump.toJson) ++ "]"
  | none => jsonOfString "No prior history for this session."

/-- The `user_prompt` f-string of `analyze_with_gemini` (lines 187-200). -/
def analysis_user_prompt (rag_context : String) (history_json : String)
    (request : ContradictionRequest) : String :=
  "\n    --- RAG Context (FAERS/PubMed External Safety Data) ---\n    " ++
  rag_context ++
  "\n    \n    --- Session History (Memo0: Last 5 Analyses for session " ++
  request.session_id ++
  ") ---\n    Prior analysis results help you track the drug\x27s longitudinal safety profile:\n    " ++
  history_json ++
  "\n\n    --- Current Analysis Request ---\n    Document A (Trial Claim/Label): \"" ++
  request.trial_claim ++
  "\"\n    Document B (Case Report/ADR): \"" ++
  request.case_report ++
  "\"\n\n    Analyze the contradiction and generate ALL five required structured outputs in the JSON schema.\n    "

/-- The prompt `analyze_with_gemini` sends for a given file-system
state, history map and request. -/
def analyze_prompt (file : Option String) (h : SessionHistory)
    (request : ContradictionRequest) : String :=
  analysis_user_prompt (get_rag_context file)
    (json_dumps_history (h request.session_id)) request

/-! ## LLM calls

`client.aio.models.generate_content` is an oracle from the user prompt
to the model's reply.  For the analysis call the reply is a raw JSON
object to be validated (`none` = the call raised, or returned text that
is not JSON at all); for the extraction call, `none` covers the same
failures plus a reply failing `ContradictionRequest` validation — the
Python code catches every one of these in the same `except` block. -/

/-- `extract_request_from_pdf_text` (lines 103-156): one LLM call; any
failure becomes a 500 "Failed to extract data from PDF.". -/
def extract_request_from_pdf_text
    (extractLLM : String → Option ContradictionRequest)
    (pdf_text : String) : Except HTTPErr ContradictionRequest :=
  match extractLLM (extraction_user_prompt pdf_text) with
  | some req => .ok req
  | none => .error ⟨500, "Failed to extract data from PDF."⟩

/-- `analyze_with_gemini` (lines 161-219): build the prompt from the
RAG context and the session history, make one LLM call, validate the
reply against `ContradictionResponse`; any failure becomes a 500
"LLM analysis failed.". -/
def analyze_with_gemini
    (analysisLLM : String → Option RawContradictionResponse)
    (file : Option String) (h : SessionHistory)
    (request : ContradictionRequest) : Except HTTPErr ContradictionResponse :=
  match analysisLLM (analyze_prompt file h request) with
  | none => .error ⟨500, "LLM analysis failed."⟩
  | some raw =>
      match ContradictionResponse.model_validate raw with
      | none => .error ⟨500, "LLM analysis failed."⟩
      | some llm_output => .ok llm_output

/-! ## Endpoints (`backend/main.py` lines 224-266)

Each handler returns its HTTP outcome together with the new
`SESSION_HISTORY` state; the PDF handler also returns how many LLM
calls were made during the request. -/

/-- `POST /api/v1/analyze`: run the analysis, then `store_result`
keyed by the request's `session_id`.  A raised `HTTPException`
propagates before `store_result` runs. -/
def analyze_contradiction
    (analysisLLM : String → Option RawContradictionResponse)
    (file : Option String) (request : ContradictionRequest)
    (h : SessionHistory) :
    Except HTTPErr ContradictionResponse × SessionHistory :=
  match analyze_with_gemini analysisLLM file h request with
  | .error e => (.error e, h)
  | .ok analysis_result =>
      (.ok analysis_result, store_result request.session_id analysis_result h)

/-- Python's `str.strip()`: remove whitespace from both ends. -/
def pyStrip (s : String) : String :=
  ⟨((s.data.dropWhile Char.isWhitespace).reverse.dropWhile Char.isWhitespace).reverse⟩

/-- `POST /api/v1/analyze-pdf`: content-type gate, empty-upload gate,
PDF text extraction, empty-text gate, LLM field extraction, LLM
analysis, then `store_result` keyed by the *extracted* `session_id`.
The third component counts `generate_content` invocations. -/
def analyze_contradiction_from_pdf
    (pdfReader : List Nat → Option (List (Option String)))
    (extractLLM : String → Option ContradictionRequest)
    (analysisLLM : String → Option RawContradictionResponse)
    (file : Option String) (content_type : String) (pdf_bytes : List Nat)
    (h : SessionHistory) :
    Except HTTPErr ContradictionResponse × SessionHistory × Nat :=
  if content_type ≠ "application/pdf" then
    (.error ⟨400, "Only PDF files are supported."⟩, h, 0)
  else if pdf_bytes = [] then
    (.error ⟨400, "Empty file."⟩, h, 0)
  else
    match extract_text_from_pdf_bytes pdfReader pdf_bytes with
    | .error e => (.error e, h, 0)
    | .ok pdf_text =>
        if pyStrip pdf_text = "" then
          (.error ⟨400, "No extractable text found in PDF (it may be a scanned image)."⟩, h, 0)
        else
          match extract_request_from_pdf_text extractLLM pdf_text with
          | .error e => (.error e, h, 1)
          | .ok extracted_request =>
              match analyze_with_gemini analysisLLM file h extracted_request with
              | .error e => (.error e, h, 2)
              | .ok analysis_result =>
                  (.ok analysis_result,
                    store_result extracted_request.session_id analysis_result h, 2)

/-! ## Sample data used by witnesses -/

def sampleResponse : ContradictionResponse :=
  ⟨"Yes", 1, "reasoning text", [], "draft text"⟩

def sampleRequest : ContradictionRequest :=
  ⟨"trial claim text", "case report text", "s"⟩

/-! ## Helper lemmas about `lastN` and the store -/

theorem lastN_length (n : Nat) (l : List α) : (lastN n l).length = min n l.length := by
  simp only [lastN, List.length_drop]
  omega

theorem lastN_of_length_le (n : Nat) (l : List α) (h : l.length ≤ n) :
    lastN n l = l := by
  unfold lastN
  rw [Nat.sub_eq_zero_of_le h, List.drop_zero]

theorem lastN_append_lastN (n : Nat) (x l : List α) :
    lastN n (lastN n x ++ l) = lastN n (x ++ l) := by
  rcases le_or_lt x.length n with hxn | hxn
  · rw [lastN_of_length_le n x hxn]
  · have hk : x.length - n ≤ x.length := Nat.sub_le _ _
    unfold lastN
    rw [← List.drop_append_of_le_length hk, List.drop_drop, List.length_drop,
      List.length_append]
    congr 1
    omega

theorem histAt_store_self (sid : String) (r : ContradictionResponse)
    (h : SessionHistory) :
    histAt (store_result sid r h) sid =
      lastN 5 (histAt h sid ++ [r.model_dump]) := by
  simp [histAt, store_result]

theorem store_result_other (s sid : String) (r : ContradictionResponse)
    (h : SessionHistory) (hne : sid ≠ s) :
    store_result s r h sid = h sid := by
  simp [store_result, hne]

theorem store_session_histAt (sid : String) (rs : List ContradictionResponse)
    (h : SessionHistory) (hl : (histAt h sid).length ≤ 5) :
    histAt (store_session sid rs h) sid =
      lastN 5 (histAt h sid ++ rs.map ContradictionResponse.model_dump) := by
  induction rs generalizing h with
  | nil => simpa using (lastN_of_length_le 5 _ hl).symm
  | cons r rs ih =>
      have h5 : (histAt (store_result sid r h) sid).length ≤ 5 := by
        rw [histAt_store_self, lastN_length]
        omega
      have hstep : store_session sid (r :: rs) h =
          store_session sid rs (store_result sid r h) := rfl
      rw [hstep, ih _ h5, histAt_store_self, lastN_append_lastN, List.append_assoc]
      simp

theorem store_result_bound (s : String) (r : ContradictionResponse)
    (h : SessionHistory) (hb : ∀ k, (histAt h k).length ≤ 5) :
    ∀ k, (histAt (store_result s r h) k).length ≤ 5 := by
  intro k
  by_cases hk : k = s
  · subst hk
    rw [histAt_store_self, lastN_length]
    omega
  · have heq : store_result s r h k = h k := store_result_other s k r h hk
    simpa [histAt, heq] using hb k

theorem store_all_bound (ops : List (String × ContradictionResponse))
    (h : SessionHistory) (hb : ∀ k, (histAt h k).length ≤ 5) :
    ∀ k, (histAt (store_all ops h) k).length ≤ 5 := by
  induction ops generalizing h with
  | nil => exact hb
  | cons op ops ih => exact ih _ (store_result_bound op.1 op.2 h hb)

/-! ## Claim theorems -/

/-- C2: for every session and every sequence of N successful
`store_result` calls for that session starting from a state where the
session has no history, the stored history has length `min N 5` and is
exactly the (dumps of the) 5 most recently stored results in order,
oldest dropped first; moreover every state reachable from the initial
empty map by `store_result` calls maps every key to a list of length at
most 5. -/
theorem c2_history_truncation :
    (∀ (sid : String) (rs : List ContradictionResponse) (h : SessionHistory),
      h sid = none →
      histAt (store_session sid rs h) sid =
        lastN 5 (rs.map ContradictionResponse.model_dump) ∧
      (histAt (store_session sid rs h) sid).length = min rs.length 5) ∧
    (∀ (ops : List (String × ContradictionResponse)) (k : String),
      (histAt (store_all ops emptyHistory) k).length ≤ 5) := by
  constructor
  · intro sid rs h hnone
    have h0 : histAt h sid = [] := by simp [histAt, hnone]
    have hl : (histAt h sid).length ≤ 5 := by simp [h0]
    have hmain := store_session_histAt sid rs h hl
    rw [h0, List.nil_append] at hmain
    refine ⟨hmain, ?_⟩
    rw [hmain, lastN_length, List.length_map, Nat.min_comm]
  · intro ops k
    exact store_all_bound ops emptyHistory (fun k => by simp [histAt, emptyHistory]) k

/-- C2 witness: six stores into a fresh session leave a history of
length `min 6 5 = 5`. -/
theorem c2_history_truncation_witness :
    emptyHistory "s" = none ∧
    (histAt (store_session "s" (List.replicate 6 sampleResponse) emptyHistory) "s" =
        lastN 5 ((List.replicate 6 sampleResponse).map ContradictionResponse.model_dump) ∧
      (histAt (store_session "s" (List.replicate 6 sampleResponse) emptyHistory) "s").length =
        min (List.replicate 6 sampleResponse).length 5) :=
  ⟨rfl, c2_history_truncation.1 "s" (List.replicate 6 sampleResponse) emptyHistory rfl⟩

/-- C9: `store_result` does not deduplicate by content: when a session's
history holds fewer than 5 entries, storing the same result twice leaves
a history ending in two structurally identical entries, and the window
length grows to `min (len + 2) 5`. -/
theorem c9_no_dedup (sid : String) (r : ContradictionResponse) (h : SessionHistory)
    (hl : (histAt h sid).length < 5) :
    (∃ l, histAt (store_result sid r (store_result sid r h)) sid =
        l ++ [r.model_dump, r.model_dump]) ∧
    (histAt (store_result sid r (store_result sid r h)) sid).length =
      min ((histAt h sid).length + 2) 5 := by
  have h1 : histAt (store_result sid r h) sid = histAt h sid ++ [r.model_dump] := by
    rw [histAt_store_self]
    exact lastN_of_length_le 5 _ (by simp; omega)
  have h2 : histAt (store_result sid r (store_result sid r h)) sid =
      lastN 5 (histAt h sid ++ [r.model_dump, r.model_dump]) := by
    rw [histAt_store_self, h1, List.append_assoc]
    rfl
  constructor
  · refine ⟨(histAt h sid).drop ((histAt h sid).length + 2 - 5), ?_⟩
    rw [h2]
    unfold lastN
    rw [List.drop_append_of_le_length (by simp)]
    congr 1
    simp
  · rw [h2, lastN_length]
    simp [Nat.min_comm]

/-- C9 witness: storing the same result twice in a fresh session yields
the two identical entries. -/
theorem c9_no_dedup_witness :
    (histAt emptyHistory "s").length < 5 ∧
    ((∃ l, histAt (store_result "s" sampleResponse
          (store_result "s" sampleResponse emptyHistory)) "s" =
        l ++ [sampleResponse.model_dump, sampleResponse.model_dump]) ∧
      (histAt (store_result "s" sampleResponse
          (store_result "s" sampleResponse emptyHistory)) "s").length =
        min ((histAt emptyHistory "s").length + 2) 5) :=
  ⟨by decide, c9_no_dedup "s" sampleResponse emptyHistory (by decide)⟩

/-- C10: `store_result` only touches the entry it is keyed by — for
distinct sessions `s ≠ s'`, the history stored under `s'` is unchanged. -/
theorem c10_store_frame (s s' : String) (r : ContradictionResponse)
    (h : SessionHistory) (hne : s ≠ s') :
    store_result s r h s' = h s' :=
  store_result_other s s' r h (Ne.symm hne)

/-- C10 witness: storing under "a" leaves key "b" absent. -/
theorem c10_store_frame_witness :
    ("a" : String) ≠ "b" ∧
    store_result "a" sampleResponse emptyHistory "b" = emptyHistory "b" :=
  ⟨by decide, c10_store_frame "a" "b" sampleResponse emptyHistory (by decide)⟩

/-! ## Validation claims (C1, C4, C8) -/

theorem validate_heatmap_none_of_mem {l : List RawHeatmapEntry} {e : RawHeatmapEntry}
    (hmem : e ∈ l) (hbad : HeatmapEntry.model_validate e = none) :
    validate_heatmap l = none := by
  induction l with
  | nil => cases hmem
  | cons a as ih =>
      rcases List.mem_cons.1 hmem with rfl | hmem
      · simp [validate_heatmap, hbad]
      · cases ha : HeatmapEntry.model_validate a <;>
          simp [validate_heatmap, ha, ih hmem]

def c1raw : RawContradictionResponse :=
  ⟨some "Yes", some 1, some "because", none, none⟩

/-- C1 counterexample: a JSON object supplying `contradiction_detected`,
`signal_confidence_score` and `contradiction_reasoning` but omitting
`safety_contradiction_heatmap` and `regulatory_reporting_draft` FAILS
validation against `ContradictionResponse` (the claim says it
succeeds): both fields are declared `Field(...)`, i.e. required. -/
theorem c1_counterexample :
    c1raw.contradiction_detected = some "Yes" ∧
    c1raw.signal_confidence_score = some 1 ∧
    c1raw.contradiction_reasoning = some "because" ∧
    c1raw.safety_contradiction_heatmap = none ∧
    c1raw.regulatory_reporting_draft = none ∧
    ContradictionResponse.model_validate c1raw = none :=
  ⟨rfl, rfl, rfl, rfl, rfl, rfl⟩

/-- C1 (amended): `safety_contradiction_heatmap` and
`regulatory_reporting_draft` are required fields of
`ContradictionResponse`: every JSON object omitting either of them
fails validation. -/
theorem c1_required_fields (raw : RawContradictionResponse)
    (hmiss : raw.safety_contradiction_heatmap = none ∨
      raw.regulatory_reporting_draft = none) :
    ContradictionResponse.model_validate raw = none := by
  obtain ⟨cd, scs, cr, hm, rrd⟩ := raw
  unfold ContradictionResponse.model_validate
  rcases hmiss with hmiss | hmiss
  · simp only at hmiss
    subst hmiss
    cases cd <;> cases scs <;> cases cr <;> cases rrd <;> rfl
  · simp only at hmiss
    subst hmiss
    cases cd <;> cases scs <;> cases cr <;> cases hm <;> rfl

/-- C1 witness: the counterexample object omits the heatmap field, and
validation rejects it. -/
theorem c1_required_fields_witness :
    c1raw.safety_contradiction_heatmap = none ∧
    ContradictionResponse.model_validate c1raw = none :=
  ⟨rfl, c1_required_fields c1raw (Or.inl rfl)⟩

def c4raw : RawContradictionResponse :=
  ⟨some "Maybe", some 1, some "r", some [], some "d"⟩

/-- C4 counterexample: a JSON object whose `contradiction_detected` is
"Maybe" (neither "Yes" nor "No") VALIDATES successfully (the claim says
validation fails): the field is a plain `str` with no enum constraint. -/
theorem c4_counterexample :
    (ContradictionResponse.model_validate c4raw).isSome = true ∧
    c4raw.contradiction_detected = some "Maybe" ∧
    ("Maybe" : String) ≠ "Yes" ∧ ("Maybe" : String) ≠ "No" :=
  ⟨rfl, rfl, by decide, by decide⟩

def set_verdict (raw : RawContradictionResponse) (s : String) :
    RawContradictionResponse :=
  ⟨some s, raw.signal_confidence_score, raw.contradiction_reasoning,
    raw.safety_contradiction_heatmap, raw.regulatory_reporting_draft⟩

/-- C4 (amended): `contradiction_detected` is an unconstrained string
field: replacing the verdict of any object that validates with an
arbitrary string still validates (the "Yes"/"No" contract lives only in
the field description and the prompt, not in validation). -/
theorem c4_verdict_unconstrained (raw : RawContradictionResponse) (s : String)
    (hok : (ContradictionResponse.model_validate raw).isSome) :
    (ContradictionResponse.model_validate (set_verdict raw s)).isSome := by
  obtain ⟨cd, scs, cr, hm, rrd⟩ := raw
  cases cd with
  | none => simp [ContradictionResponse.model_validate] at hok
  | some cd =>
  cases scs with
  | none => simp [ContradictionResponse.model_validate] at hok
  | some scs =>
  cases cr with
  | none => simp [ContradictionResponse.model_validate] at hok
  | some cr =>
  cases hm with
  | none => simp [ContradictionResponse.model_validate] at hok
  | some hm =>
  cases rrd with
  | none => simp [ContradictionResponse.model_validate] at hok
  | some rrd =>
  have hred : ∀ (c : String),
      ContradictionResponse.model_validate ⟨some c, some scs, some cr, some hm, some rrd⟩ =
        (if 0 ≤ scs ∧ scs ≤ 1 then
          match validate_heatmap hm with
          | some vhm => some ⟨c, scs, cr, vhm, rrd⟩
          | none => none
        else none) := fun c => rfl
  have hsv : set_verdict ⟨some cd, some scs, some cr, some hm, some rrd⟩ s =
      ⟨some s, some scs, some cr, some hm, some rrd⟩ := rfl
  rw [hred] at hok
  rw [hsv, hred]
  by_cases hcond : 0 ≤ scs ∧ scs ≤ 1
  · rw [if_pos hcond] at hok ⊢
    cases hvh : validate_heatmap hm with
    | none => rw [hvh] at hok; simp at hok
    | some vhm => simp
  · rw [if_neg hcond] at hok
    simp at hok

/-- C4 witness: the "Maybe" object validates, and so does the same
object with verdict "Definitely". -/
theorem c4_verdict_unconstrained_witness :
    (ContradictionResponse.model_validate c4raw).isSome = true ∧
    (ContradictionResponse.model_validate (set_verdict c4raw "Definitely")).isSome = true :=
  ⟨rfl, c4_verdict_unconstrained c4raw "Definitely" rfl⟩

/-- C8: numeric bounds are enforced by validation, never by clamping:
an out-of-range `signal_confidence_score` (outside [0,1]) makes
response validation fail; an out-of-range `trial_frequency_percent`
(outside [0,100]) or `post_market_severity_score` (outside 1..5) makes
the heatmap-entry validation fail, and any such entry makes the whole
response fail; and when validation succeeds the numeric values are
passed through unchanged. -/
theorem c8_bounds_validation :
    (∀ (raw : RawContradictionResponse) (q : ℚ),
      raw.signal_confidence_score = some q → (q < 0 ∨ 1 < q) →
      ContradictionResponse.model_validate raw = none) ∧
    (∀ (e : RawHeatmapEntry) (q : ℚ),
      e.trial_frequency_percent = some q → (q < 0 ∨ 100 < q) →
      HeatmapEntry.model_validate e = none) ∧
    (∀ (e : RawHeatmapEntry) (n : Int),
      e.post_market_severity_score = some n → (n < 1 ∨ 5 < n) →
      HeatmapEntry.model_validate e = none) ∧
    (∀ (raw : RawContradictionResponse) (l : List RawHeatmapEntry)
        (e : RawHeatmapEntry),
      raw.safety_contradiction_heatmap = some l → e ∈ l →
      HeatmapEntry.model_validate e = none →
      ContradictionResponse.model_validate raw = none) ∧
    (∀ (raw : RawContradictionResponse) (out : ContradictionResponse),
      ContradictionResponse.model_validate raw = some out →
      raw.signal_confidence_score = some out.signal_confidence_score) ∧
    (∀ (e : RawHeatmapEntry) (o : HeatmapEntry),
      HeatmapEntry.model_validate e = some o →
      e.trial_frequency_percent = some o.trial_frequency_percent ∧
      e.post_market_severity_score = some o.post_market_severity_score) := by
  refine ⟨?_, ?_, ?_, ?_, ?_, ?_⟩
  · intro raw q hs hq
    have hcond : ¬(0 ≤ q ∧ q ≤ 1) := by
      rintro ⟨h0, h1⟩
      rcases hq with h | h <;> linarith
    obtain ⟨cd, scs, cr, hm, rrd⟩ := raw
    simp only at hs
    subst hs
    unfold ContradictionResponse.model_validate
    cases cd <;> cases cr <;> cases hm <;> cases rrd <;> simp [hcond]
  · intro e q ht hq
    have hcond : ¬(0 ≤ q ∧ q ≤ 100) := by
      rintro ⟨h0, h1⟩
      rcases hq with h | h <;> linarith
    obtain ⟨ae, tfp, pmss, cl⟩ := e
    simp only at ht
    subst ht
    unfold HeatmapEntry.model_validate
    cases ae <;> cases pmss <;> cases cl <;> simp
    exact fun h0 h1 => absurd ⟨h0, h1⟩ hcond
  · intro e n hp hn
    obtain ⟨ae, tfp, pmss, cl⟩ := e
    simp only at hp
    subst hp
    unfold HeatmapEntry.model_validate
    cases ae <;> cases tfp <;> cases cl <;> simp
    exact fun h0 h1 h2 => by omega
  · intro raw l e hhm hmem hbad
    obtain ⟨cd, scs, cr, hm, rrd⟩ := raw
    simp only at hhm
    subst hhm
    unfold ContradictionResponse.model_validate
    cases cd <;> cases scs <;> cases cr <;> cases rrd <;>
      simp [validate_heatmap_none_of_mem hmem hbad]
  · intro raw out hval
    obtain ⟨cd, scs, cr, hm, rrd⟩ := raw
    cases cd with
    | none => simp [ContradictionResponse.model_validate] at hval
    | some cd =>
    cases scs with
    | none => simp [ContradictionResponse.model_validate] at hval
    | some scs =>
    cases cr with
    | none => simp [ContradictionResponse.model_validate] at hval
    | some cr =>
    cases hm with
    | none => simp [ContradictionResponse.model_validate] at hval
    | some hm =>
    cases rrd with
    | none => simp [ContradictionResponse.model_validate] at hval
    | some rrd =>
    have hred :
        ContradictionResponse.model_validate ⟨some cd, some scs, some cr, some hm, some rrd⟩ =
          (if 0 ≤ scs ∧ scs ≤ 1 then
            match validate_heatmap hm with
            | some vhm => some ⟨cd, scs, cr, vhm, rrd⟩
            | none => none
          else none) := rfl
    rw [hred] at hval
    split at hval
    · cases hvh : validate_heatmap hm with
      | none => rw [hvh] at hval; cases hval
      | some vhm =>
          rw [hvh] at hval
          cases hval
          rfl
    · cases hval
  · intro e o hval
    obtain ⟨ae, tfp, pmss, cl⟩ := e
    cases ae with
    | none => simp [HeatmapEntry.model_validate] at hval
    | some ae =>
    cases tfp with
    | none => simp [HeatmapEntry.model_validate] at hval
    | some tfp =>
    cases pmss with
    | none => simp [HeatmapEntry.model_validate] at hval
    | some pmss =>
    cases cl with
    | none => simp [HeatmapEntry.model_validate] at hval
    | some cl =>
    have hred : HeatmapEntry.model_validate ⟨some ae, some tfp, some pmss, some cl⟩ =
        (if 0 ≤ tfp ∧ tfp ≤ 100 ∧ 1 ≤ pmss ∧ pmss ≤ 5 then
          some ⟨ae, tfp, pmss, cl⟩
        else none) := rfl
    rw [hred] at hval
    split at hval
    · cases hval
      exact ⟨rfl, rfl⟩
    · cases hval

def c8raw_bad_score : RawContradictionResponse :=
  ⟨some "Yes", some 2, some "r", some [], some "d"⟩

def c8entry_bad_freq : RawHeatmapEntry :=
  ⟨some "Hepatotoxicity", some 101, some 3, some "High"⟩

def c8entry_bad_sev : RawHeatmapEntry :=
  ⟨some "Hepatotoxicity", some 50, some 6, some "High"⟩

def c8raw_bad_entry : RawContradictionResponse :=
  ⟨some "Yes", some 1, some "r", some [c8entry_bad_freq], some "d"⟩

def c8raw_ok : RawContradictionResponse :=
  ⟨some "Yes", some 1, some "r", some [], some "d"⟩

def c8entry_ok : RawHeatmapEntry :=
  ⟨some "Hepatotoxicity", some 50, some 3, some "High"⟩

/-- C8 witness: out-of-range values are rejected at concrete inputs,
and in-range values come through unchanged. -/
theorem c8_bounds_validation_witness :
    ContradictionResponse.model_validate c8raw_bad_score = none ∧
    HeatmapEntry.model_validate c8entry_bad_freq = none ∧
    HeatmapEntry.model_validate c8entry_bad_sev = none ∧
    ContradictionResponse.model_validate c8raw_bad_entry = none ∧
    c8raw_ok.signal_confidence_score = some (1 : ℚ) ∧
    (c8entry_ok.trial_frequency_percent = some (50 : ℚ) ∧
      c8entry_ok.post_market_severity_score = some (3 : Int)) :=
  ⟨c8_bounds_validation.1 c8raw_bad_score 2 rfl (Or.inr (by norm_num)),
    c8_bounds_validation.2.1 c8entry_bad_freq 101 rfl (Or.inr (by norm_num)),
    c8_bounds_validation.2.2.1 c8entry_bad_sev 6 rfl (Or.inr (by norm_num)),
    c8_bounds_validation.2.2.2.1 c8raw_bad_entry [c8entry_bad_freq] c8entry_bad_freq
      rfl (List.mem_singleton.2 rfl)
      (c8_bounds_validation.2.1 c8entry_bad_freq 101 rfl (Or.inr (by norm_num))),
    c8_bounds_validation.2.2.2.2.1 c8raw_ok ⟨"Yes", 1, "r", [], "d"⟩ rfl,
    c8_bounds_validation.2.2.2.2.2 c8entry_ok ⟨"Hepatotoxicity", 50, 3, "High"⟩ rfl⟩

/-! ## Pipeline claims (C3, C5, C6, C7) -/

/-- C3: if any stage of either endpoint fails, the handler returns an
error and the session-history map is exactly the one it started with:
history is appended only after a fully successful analysis. -/
theorem c3_no_partial_state :
    (∀ (analysisLLM : String → Option RawContradictionResponse)
        (file : Option String) (request : ContradictionRequest)
        (h : SessionHistory) (e : HTTPErr),
      (analyze_contradiction analysisLLM file request h).1 = .error e →
      (analyze_contradiction analysisLLM file request h).2 = h) ∧
    (∀ (pdfReader : List Nat → Option (List (Option String)))
        (extractLLM : String → Option ContradictionRequest)
        (analysisLLM : String → Option RawContradictionResponse)
        (file : Option String) (content_type : String) (pdf_bytes : List Nat)
        (h : SessionHistory) (e : HTTPErr),
      (analyze_contradiction_from_pdf pdfReader extractLLM analysisLLM file
          content_type pdf_bytes h).1 = .error e →
      (analyze_contradiction_from_pdf pdfReader extractLLM analysisLLM file
          content_type pdf_bytes h).2.1 = h) := by
  constructor
  · intro al file req h e
    unfold analyze_contradiction
    cases analyze_with_gemini al file h req <;> simp
  · intro pr el al file ct bytes h e
    unfold analyze_contradiction_from_pdf
    split
    · simp
    · split
      · simp
      · split
        · simp
        · split
          · simp
          · split
            · simp
            · split <;> simp

def noAnalysisLLM : String → Option RawContradictionResponse := fun _ => none

/-- C3 witness: a failing LLM call leaves the history untouched. -/
theorem c3_no_partial_state_witness :
    (analyze_contradiction noAnalysisLLM none sampleRequest emptyHistory).1 =
      .error ⟨500, "LLM analysis failed."⟩ ∧
    (analyze_contradiction noAnalysisLLM none sampleRequest emptyHistory).2 =
      emptyHistory :=
  ⟨rfl, c3_no_partial_state.1 noAnalysisLLM none sampleRequest emptyHistory
    ⟨500, "LLM analysis failed."⟩ rfl⟩

/-- C5: each of the four input-validation failures of
`/api/v1/analyze-pdf` — wrong content type, empty payload, unparseable
PDF, parseable PDF with empty trimmed text — yields a 400 with its own
distinct message, no LLM call, and an unchanged history; the four
messages are pairwise distinct (in particular "no extractable text" is
distinguishable from "could not read PDF"). -/
theorem c5_pdf_input_validation :
    (∀ (pdfReader : List Nat → Option (List (Option String)))
        (extractLLM : String → Option ContradictionRequest)
        (analysisLLM : String → Option RawContradictionResponse)
        (file : Option String) (content_type : String) (pdf_bytes : List Nat)
        (h : SessionHistory), content_type ≠ "application/pdf" →
      analyze_contradiction_from_pdf pdfReader extractLLM analysisLLM file
          content_type pdf_bytes h =
        (.error ⟨400, "Only PDF files are supported."⟩, h, 0)) ∧
    (∀ (pdfReader : List Nat → Option (List (Option String)))
        (extractLLM : String → Option ContradictionRequest)
        (analysisLLM : String → Option RawContradictionResponse)
        (file : Option String) (h : SessionHistory),
      analyze_contradiction_from_pdf pdfReader extractLLM analysisLLM file
          "application/pdf" [] h =
        (.error ⟨400, "Empty file."⟩, h, 0)) ∧
    (∀ (pdfReader : List Nat → Option (List (Option String)))
        (extractLLM : String → Option ContradictionRequest)
        (analysisLLM : String → Option RawContradictionResponse)
        (file : Option String) (pdf_bytes : List Nat) (h : SessionHistory),
      pdf_bytes ≠ [] → pdfReader pdf_bytes = none →
      analyze_contradiction_from_pdf pdfReader extractLLM analysisLLM file
          "application/pdf" pdf_bytes h =
        (.error ⟨400, "Could not read PDF content."⟩, h, 0)) ∧
    (∀ (pdfReader : List Nat → Option (List (Option String)))
        (extractLLM : String → Option ContradictionRequest)
        (analysisLLM : String → Option RawContradictionResponse)
        (file : Option String) (pdf_bytes : List Nat)
        (pages : List (Option String)) (h : SessionHistory),
      pdf_bytes ≠ [] → pdfReader pdf_bytes = some pages →
      pyStrip (String.intercalate "\n\n" (pages.map (fun p => p.getD ""))) = "" →
      analyze_contradiction_from_pdf pdfReader extractLLM analysisLLM file
          "application/pdf" pdf_bytes h =
        (.error ⟨400, "No extractable text found in PDF (it may be a scanned image)."⟩, h, 0)) ∧
    (("Only PDF files are supported." : String) ≠ "Empty file." ∧
      ("Only PDF files are supported." : String) ≠ "Could not read PDF content." ∧
      ("Only PDF files are supported." : String) ≠
        "No extractable text found in PDF (it may be a scanned image)." ∧
      ("Empty file." : String) ≠ "Could not read PDF content." ∧
      ("Empty file." : String) ≠
        "No extractable text found in PDF (it may be a scanned image)." ∧
      ("Could not read PDF content." : String) ≠
        "No extractable text found in PDF (it may be a scanned image).") := by
  refine ⟨?_, ?_, ?_, ?_, by decide, by decide, by decide, by decide, by decide, by decide⟩
  · intro pr el al file ct bytes h hct
    simp [analyze_contradiction_from_pdf, hct]
  · intro pr el al file h
    simp [analyze_contradiction_from_pdf]
  · intro pr el al file bytes h hb hpr
    simp [analyze_contradiction_from_pdf, extract_text_from_pdf_bytes, hb, hpr]
  · intro pr el al file bytes pages h hb hpr ht
    simp [analyze_contradiction_from_pdf, extract_text_from_pdf_bytes, hb, hpr, ht]

def noReader : List Nat → Option (List (Option String)) := fun _ => none

def blankPageReader : List Nat → Option (List (Option String)) := fun _ => some [none]

def noExtractLLM : String → Option ContradictionRequest := fun _ => none

/-- C5 witness: the four rejection cases at concrete inputs. -/
theorem c5_pdf_input_validation_witness :
    (("text/plain" : String) ≠ "application/pdf" ∧
      analyze_contradiction_from_pdf noReader noExtractLLM noAnalysisLLM none
          "text/plain" [1] emptyHistory =
        (.error ⟨400, "Only PDF files are supported."⟩, emptyHistory, 0)) ∧
    (analyze_contradiction_from_pdf noReader noExtractLLM noAnalysisLLM none
          "application/pdf" [] emptyHistory =
        (.error ⟨400, "Empty file."⟩, emptyHistory, 0)) ∧
    (([1] : List Nat) ≠ [] ∧ noReader [1] = none ∧
      analyze_contradiction_from_pdf noReader noExtractLLM noAnalysisLLM none
          "application/pdf" [1] emptyHistory =
        (.error ⟨400, "Could not read PDF content."⟩, emptyHistory, 0)) ∧
    (([1] : List Nat) ≠ [] ∧ blankPageReader [1] = some [none] ∧
      pyStrip (String.intercalate "\n\n" (([none] : List (Option String)).map (fun p => p.getD ""))) = "" ∧
      analyze_contradiction_from_pdf blankPageReader noExtractLLM noAnalysisLLM none
          "application/pdf" [1] emptyHistory =
        (.error ⟨400, "No extractable text found in PDF (it may be a scanned image)."⟩, emptyHistory, 0)) :=
  ⟨⟨by decide, c5_pdf_input_validation.1 noReader noExtractLLM noAnalysisLLM none
      "text/plain" [1] emptyHistory (by decide)⟩,
    c5_pdf_input_validation.2.1 noReader noExtractLLM noAnalysisLLM none emptyHistory,
    ⟨by decide, rfl, c5_pdf_input_validation.2.2.1 noReader noExtractLLM noAnalysisLLM none
      [1] emptyHistory (by decide) rfl⟩,
    ⟨by decide, rfl, by decide, c5_pdf_input_validation.2.2.2.1 blankPageReader noExtractLLM
      noAnalysisLLM none [1] [none] emptyHistory (by decide) rfl (by decide)⟩⟩

/-- C6: for every parseable PDF byte stream the extractor returns the
per-page texts (empty string substituted for a page with no extractable
text) joined with the two-character separator "\n\n"; for a 2-page PDF
whose second page has no text the result is the page-1 text followed by
the separator and the empty string. -/
theorem c6_pdf_text_join :
    (∀ (pdfReader : List Nat → Option (List (Option String)))
        (pdf_bytes : List Nat) (pages : List (Option String)),
      pdfReader pdf_bytes = some pages →
      extract_text_from_pdf_bytes pdfReader pdf_bytes =
        .ok (String.intercalate "\n\n" (pages.map (fun p => p.getD "")))) ∧
    (("\n\n" : String).length = 2) ∧
    (∀ (pdfReader : List Nat → Option (List (Option String)))
        (pdf_bytes : List Nat) (t1 : String),
      pdfReader pdf_bytes = some [some t1, none] →
      extract_text_from_pdf_bytes pdfReader pdf_bytes = .ok (t1 ++ "\n\n")) := by
  refine ⟨?_, by decide, ?_⟩
  · intro pr bs pages hp
    simp [extract_text_from_pdf_bytes, hp]
  · intro pr bs t1 hp
    simp [extract_text_from_pdf_bytes, hp, String.intercalate,
      String.intercalate.go, String.append_empty]

def twoPageReader : List Nat → Option (List (Option String)) :=
  fun _ => some [some "Trial X showed no serious adverse events.", none]

/-- C6 witness: a 2-page PDF whose second page is image-only. -/
theorem c6_pdf_text_join_witness :
    twoPageReader [0] = some [some "Trial X showed no serious adverse events.", none] ∧
    extract_text_from_pdf_bytes twoPageReader [0] =
      .ok ("Trial X showed no serious adverse events." ++ "\n\n") :=
  ⟨rfl, c6_pdf_text_join.2.2 twoPageReader [0]
    "Trial X showed no serious adverse events." rfl⟩

/-- C7: when the reference file is absent, `get_rag_context` returns
the literal fallback string rather than raising; that string is
embedded verbatim in the analysis prompt; and the analysis pipeline
still completes successfully (the endpoint returns the validated
response and records it) — a missing reference file never fails a
request. -/
theorem c7_rag_fallback :
    (get_rag_context none = ragFallback) ∧
    (∀ (h : SessionHistory) (request : ContradictionRequest),
      ∃ a b : String, analyze_prompt none h request = a ++ (ragFallback ++ b)) ∧
    (∀ (analysisLLM : String → Option RawContradictionResponse)
        (h : SessionHistory) (request : ContradictionRequest)
        (raw : RawContradictionResponse) (out : ContradictionResponse),
      analysisLLM (analyze_prompt none h request) = some raw →
      ContradictionResponse.model_validate raw = some out →
      analyze_contradiction analysisLLM none request h =
        (.ok out, store_result request.session_id out h)) := by
  refine ⟨rfl, ?_, ?_⟩
  · intro h req
    refine ⟨"\n    --- RAG Context (FAERS/PubMed External Safety Data) ---\n    ",
      "\n    \n    --- Session History (Memo0: Last 5 Analyses for session " ++
        (req.session_id ++
          (") ---\n    Prior analysis results help you track the drug\x27s longitudinal safety profile:\n    " ++
            (json_dumps_history (h req.session_id) ++
              ("\n\n    --- Current Analysis Request ---\n    Document A (Trial Claim/Label): \"" ++
                (req.trial_claim ++
                  ("\"\n    Document B (Case Report/ADR): \"" ++
                    (req.case_report ++
                      "\"\n\n    Analyze the contradiction and generate ALL five required structured outputs in the JSON schema.\n    "))))))), ?_⟩
    simp only [analyze_prompt, analysis_user_prompt, get_rag_context,
      Option.getD_none, String.append_assoc]
  · intro al h req raw out h1 h2
    simp [analyze_contradiction, analyze_with_gemini, h1, h2]

def c7raw : RawContradictionResponse :=
  ⟨some "No", some 1, some "r", some [], some "d"⟩

def c7out : ContradictionResponse := ⟨"No", 1, "r", [], "d"⟩

def okAnalysisLLM : String → Option RawContradictionResponse := fun _ => some c7raw

/-- C7 witness: with the reference file absent, a concrete request
still completes and is recorded. -/
theorem c7_rag_fallback_witness :
    okAnalysisLLM (analyze_prompt none emptyHistory sampleRequest) = some c7raw ∧
    ContradictionResponse.model_validate c7raw = some c7out ∧
    analyze_contradiction okAnalysisLLM none sampleRequest emptyHistory =
      (.ok c7out, store_result sampleRequest.session_id c7out emptyHistory) :=
  ⟨rfl, rfl, c7_rag_fallback.2.2 okAnalysisLLM emptyHistory sampleRequest c7raw c7out rfl rfl⟩

end Pharma
